import Mathlib

/-!
Verification of the OncoVector diagnostic orchestration pipeline.

The pipeline controller is the `runAnalysis` handler of the main application
component.  It validates the patient intake form, then drives the fixed stage
sequence Vision → Registry → Retrieval → Synthesis, updating a bounded
progress record (`ProcessingStage`) at every step and applying a per-stage
failure policy (vision failures are swallowed, all later stage failures abort
the run).

The embedding below translates that handler into a pure function.  The four
external collaborators (anatomy classifier, registry health probe, similarity
retriever, reasoning synthesizer) are consumed through narrow interfaces, so a
run is a function of the component state and of the four collaborator
outcomes, packaged in `Oracles`.  Every value written to the progress record
is collected in a trace (the observation points of the run), and the
retrieval query actually passed to the retriever is exposed, so that the
spec's observable properties can be stated.
-/

/-- Gender enumeration of a reference case record (types.ts `CaseStudy`). -/
inductive Gender where
  | male
  | female
  | other
  deriving DecidableEq, Repr

/-- A web citation (types.ts `WebSource`). -/
structure WebSource where
  uri : String
  title : String
  deriving DecidableEq, Repr

/-- One extracted tensor feature (types.ts `ScanAnalysis.tensorFeatures`);
the source stores the probability as a float, abstracted here. -/
structure TensorFeature where
  feature : String
  probability : Nat
  deriving DecidableEq, Repr

/-- Computer-vision metrics of a scan (types.ts `ScanAnalysis`). -/
structure ScanAnalysis where
  detected : Bool
  roiBox : Nat × Nat × Nat × Nat
  tensorFeatures : List TensorFeature
  deriving DecidableEq, Repr

/-- A reference case record (types.ts `CaseStudy`); `relevanceScore` is added
during retrieval, floats abstracted. -/
structure CaseStudy where
  id : String
  title : String
  age : Nat
  gender : Gender
  symptoms : List String
  diagnosis : String
  outcome : String
  summary : String
  imageUrl : String
  visual_findings : String
  databaseSource : String
  verifiedBy : String
  relevanceScore : Option Nat
  sourceUrl : Option String
  deriving DecidableEq, Repr

/-- The final report (types.ts `AnalysisResult`). -/
structure AnalysisResult where
  riskScore : Nat
  confidenceScore : Nat
  missingInformation : List String
  visualEvidence : List String
  reasoning : String
  recommendedTests : List String
  potentialDiagnoses : List String
  matchedCases : List CaseStudy
  webSources : List WebSource
  scanAnalysis : Option ScanAnalysis
  deriving DecidableEq, Repr

/-- The patient intake form (types.ts `PatientData`).  `age` is the raw text
of the age field; `images` stands for the uploaded `File` list (only identity
and count are observable to the pipeline). -/
structure PatientData where
  age : String
  gender : String
  symptoms : String
  history : String
  images : List String
  deriving DecidableEq, Repr

/-- The stage discriminator of the granular loading state
(`processingStage.step` in the source). -/
inductive StageStep where
  | vision
  | registry
  | retrieval
  | synthesis
  deriving DecidableEq, Repr

/-- The granular loading state (the `processingStage` record of the
component): current stage, human label, percent complete, capped log. -/
structure ProcessingStage where
  step : StageStep
  label : String
  progress : Nat
  log : List String
  deriving DecidableEq, Repr

/-- The top-level phase of the component (`step` state hook). -/
inductive AppStep where
  | input
  | analyzing
  | results
  deriving DecidableEq, Repr

/-- The component state the pipeline reads and writes: phase, intake form,
result, error banner, registry health display, progress record. -/
structure AppState where
  step : AppStep
  patientData : PatientData
  analysisResult : Option AnalysisResult
  error : Option String
  systemHealth : List String
  processingStage : ProcessingStage
  deriving DecidableEq, Repr

/-- Outcomes of the four external collaborator calls a single run makes:
`identifyAnatomyFromImage`, `getRegistryHealth`, `retrieveSimilarCases`,
`analyzePatientCase`.  Errors carry the user-facing message. -/
structure Oracles where
  classify : Except String String
  health : Except String (List String)
  retrieve : Except String (List CaseStudy)
  analyze : Except String AnalysisResult

/-- The observable outcome of one invocation of the run handler: the final
component state, the sequence of values written to the progress record (the
observation points), and the query handed to the retriever, when reached. -/
structure RunResult where
  final : AppState
  trace : List ProcessingStage
  retrievalQuery : Option String

/-- JS `String.prototype.trim`: strip leading and trailing whitespace.
(Defined by structural recursion over the character list so that it
evaluates inside the kernel.) -/
def jsTrim (s : String) : String :=
  String.mk (((s.data.dropWhile Char.isWhitespace).reverse.dropWhile Char.isWhitespace).reverse)

/-- The last `n` entries of a list (JS `Array.slice(-n)`). -/
def lastN (n : Nat) (l : List String) : List String :=
  l.drop (l.length - n)

/-- `addLog` of the source: push the entry, keeping only the last three prior
entries, so the log never exceeds four entries. -/
def addLog (ps : ProcessingStage) (msg : String) : ProcessingStage :=
  { ps with log := lastN 3 ps.log ++ [msg] }

/-- Retrieval query construction (source lines 182–187): prefix the free-text
symptoms with the bracketed anatomy tag when vision produced one, otherwise
substitute the default phrase when the symptoms are blank. -/
def constructQuery (symptoms anatomyContext : String) : String :=
  if anatomyContext = "" then
    if jsTrim symptoms = "" then "visual anomaly suspected malignancy"
    else symptoms
  else "[PATIENT IMAGING ANATOMY: " ++ anatomyContext ++ "] " ++ symptoms

/-- The anatomy context a run ends the vision stage with: the classifier
label when imagery is present and classification succeeds, empty otherwise. -/
def anatomyCtx (s : AppState) (o : Oracles) : String :=
  if s.patientData.images = [] then ""
  else
    match o.classify with
    | Except.ok anat => anat
    | Except.error _ => ""

/-- The `runAnalysis` handler (source lines 133–210) as a pure function of
the component state and the collaborator outcomes.  Stage order, progress
percents, labels and log lines are transcribed from the source; each write to
the progress record is also appended to the trace. -/
def runAnalysis (s : AppState) (o : Oracles) : RunResult :=
  if s.patientData.age = "" then
    { final := { s with error := some "Please provide patient age." },
      trace := [], retrievalQuery := none }
  else if jsTrim s.patientData.symptoms = "" ∧ s.patientData.images = [] then
    { final :=
        { s with error := some "Please provide either clinical symptoms OR upload diagnostic imagery." },
      trace := [], retrievalQuery := none }
  else
    let s1 := { s with step := AppStep.analyzing, error := none, systemHealth := [] }
    let ps0 : ProcessingStage :=
      { step := StageStep.vision, label := "Booting Neural Engines...", progress := 5,
        log := [ "> System init sequence started..."] }
    let vis : String × ProcessingStage × List ProcessingStage :=
      if s.patientData.images = [] then
        let a1 := { ps0 with label := "Skipping Vision Layer", progress := 30 }
        let a2 := addLog a1 "> No image data provided. Bypassing vision stack."
        ("", a2, [ps0, a1, a2])
      else
        let a1 := { ps0 with label := "Analyzing Visual Structures", progress := 15 }
        let a2 := addLog a1 "> ResNet-50: Loading weights..."
        match o.classify with
        | Except.ok anat =>
            let a3 := addLog a2 ("> Anatomy Identified: " ++ anat)
            let a4 := { a3 with progress := 30 }
            (anat, a4, [ps0, a1, a2, a3, a4])
        | Except.error _ => ("", a2, [ps0, a1, a2])
    let anatomyContext := vis.fst
    let r1 :=
      { vis.snd.fst with
        step := StageStep.registry, label := "Connecting to Research Nodes", progress := 45 }
    let r2 := addLog r1 "> Handshake: NIH / TCIA / ISIC ..."
    match o.health with
    | Except.error e =>
        { final := { s1 with error := some e, step := AppStep.input, processingStage := r2 },
          trace := vis.snd.snd ++ [r1, r2], retrievalQuery := none }
    | Except.ok nodes =>
        let s2 := { s1 with systemHealth := nodes }
        let r3 := addLog r2 "> Connection established: 12 Nodes Online"
        let t1 :=
          { r3 with
            step := StageStep.retrieval, label := "Traversing Vector Space", progress := 60 }
        let query := constructQuery s.patientData.symptoms anatomyContext
        let t2 := addLog t1 "> Querying dense vector embeddings..."
        match o.retrieve with
        | Except.error e =>
            { final := { s2 with error := some e, step := AppStep.input, processingStage := t2 },
              trace := vis.snd.snd ++ [r1, r2, r3, t1, t2], retrievalQuery := some query }
        | Except.ok cs =>
            let t3 := { t2 with progress := 75 }
            let t4 := addLog t3 ("> Retrieval complete: " ++ toString cs.length ++ " candidates found.")
            let y1 :=
              { t4 with
                step := StageStep.synthesis, label := "Generating Clinical Synthesis",
                progress := 85 }
            let y2 := addLog y1 "> Gemini 3 Pro: Reasoning context window active..."
            match o.analyze with
            | Except.error e =>
                { final := { s2 with error := some e, step := AppStep.input, processingStage := y2 },
                  trace := vis.snd.snd ++ [r1, r2, r3, t1, t2, t3, t4, y1, y2],
                  retrievalQuery := some query }
            | Except.ok result =>
                let y3 := { y2 with label := "Finalizing Report", progress := 100 }
                let y4 := addLog y3 "> Output generated successfully."
                let sF :=
                  { s2 with
                    analysisResult := some result, step := AppStep.results,
                    processingStage := y4 }
                { final := sF,
                  trace := vis.snd.snd ++ [r1, r2, r3, t1, t2, t3, t4, y1, y2, y3, y4],
                  retrievalQuery := some query }

/-- The sequence of percent values written to the progress record during a
run. -/
def progressTrace (r : RunResult) : List Nat :=
  r.trace.map fun p => p.progress

/-- The initial value of the progress record (`useState` initializer). -/
def initialStage : ProcessingStage :=
  { step := StageStep.vision, label := "Initializing...", progress := 0, log := [] }

/-- A concrete intake form used by the witnesses. -/
def samplePatient : PatientData :=
  { age := "55", gender := "Female", symptoms := "irregular mole", history := "", images := [] }

/-- A concrete component state at the input phase, as after mount or reset. -/
def initialState : AppState :=
  { step := AppStep.input, patientData := samplePatient, analysisResult := none,
    error := none, systemHealth := [], processingStage := initialStage }

/-- A concrete report used by the witnesses. -/
def sampleResult : AnalysisResult :=
  { riskScore := 72, confidenceScore := 88, missingInformation := [],
    visualEvidence := [ "Irregular borders"], reasoning := "Registry match.",
    recommendedTests := [], potentialDiagnoses := [ "Melanoma"],
    matchedCases := [], webSources := [], scanAnalysis := none }

/-- Collaborator outcomes in which every call succeeds. -/
def okOracles : Oracles :=
  { classify := Except.ok "Skin", health := Except.ok [ "NIH"],
    retrieve := Except.ok [], analyze := Except.ok sampleResult }

/-- A concrete intake form with imagery attached and blank symptoms. -/
def imagingPatient : PatientData :=
  { age := "40", gender := "Male", symptoms := "", history := "", images := [ "scan-1"] }

/-- A concrete component state whose query carries imagery. -/
def imagingState : AppState := { initialState with patientData := imagingPatient }

/-- Collaborator outcomes in which only the anatomy classifier fails. -/
def classifyFailOracles : Oracles :=
  { okOracles with classify := Except.error "Could not identify anatomy" }

/-- Collaborator outcomes in which only the registry health probe fails. -/
def healthFailOracles : Oracles :=
  { okOracles with health := Except.error "Registry mesh unreachable" }

/-- A concrete state whose query has neither symptoms nor imagery. -/
def noInputState : AppState :=
  { initialState with patientData := { samplePatient with symptoms := "" } }

/-- A concrete state whose age field is empty. -/
def noAgeState : AppState :=
  { initialState with patientData := { samplePatient with age := "" } }

/-- A concrete state whose age field is the string zero. -/
def zeroAgeState : AppState :=
  { initialState with patientData := { samplePatient with age := "0" } }

/-- A concrete state whose age field is a negative number string. -/
def negAgeState : AppState :=
  { initialState with patientData := { samplePatient with age := "-5" } }

/-- A concrete state whose age field is non-numeric text. -/
def textAgeState : AppState :=
  { initialState with patientData := { samplePatient with age := "abc" } }

/-- A concrete intake form whose symptoms are whitespace only. -/
def wsPatient : PatientData :=
  { age := "61", gender := "Other", symptoms := "   ", history := "", images := [] }

/-- A concrete state with whitespace-only symptoms and no imagery. -/
def wsState : AppState := { initialState with patientData := wsPatient }

/-- A concrete state with whitespace-only symptoms and imagery attached. -/
def wsImagingState : AppState :=
  { initialState with patientData := { wsPatient with images := [ "scan-2"] } }

/-- The first progress value any run writes (the boot entry). -/
def bootEntry : ProcessingStage :=
  { step := StageStep.vision, label := "Booting Neural Engines...", progress := 5,
    log := [ "> System init sequence started..."] }

/-- A progress record whose log is at capacity. -/
def fullStage : ProcessingStage :=
  { initialStage with log := [ "l1", "l2", "l3", "l4"] }

/-! ### Claim theorems -/

/-- C1: For every PatientQuery that passes validation, a single invocation of
`run` terminates in exactly one of two terminal outcomes: the Done state
(`results` phase) with a non-null AnalysisResult, or the Failed state (back to
the `input` phase) with a non-null error; it never produces both a result and
an error, and never ends in neither. -/
theorem run_terminal_dichotomy (s : AppState) (o : Oracles)
    (hage : s.patientData.age ≠ "")
    (hval : ¬(jsTrim s.patientData.symptoms = "" ∧ s.patientData.images = []))
    (hres : s.analysisResult = none) :
    (((runAnalysis s o).final.step = AppStep.results ∧
      ((runAnalysis s o).final.analysisResult).isSome ∧
      (runAnalysis s o).final.error = none) ∨
     ((runAnalysis s o).final.step = AppStep.input ∧
      ((runAnalysis s o).final.error).isSome ∧
      (runAnalysis s o).final.analysisResult = none)) ∧
    ¬(((runAnalysis s o).final.analysisResult).isSome ∧
      ((runAnalysis s o).final.error).isSome) := by
  rcases hc : o.classify with e | a <;>
  rcases hh : o.health with e2 | nodes <;>
  rcases hr : o.retrieve with e3 | cs <;>
  rcases ha : o.analyze with e4 | res <;>
  by_cases himg : s.patientData.images = [] <;>
  by_cases htrim : jsTrim s.patientData.symptoms = "" <;>
  simp_all [runAnalysis, addLog, lastN]

/-- C2: For every PatientQuery violating the validation precondition (age
absent, or symptoms blank while no imagery is attached), `run` fails
immediately with the validation error message, before any stage executes
(the collaborator outcomes are never consulted) and before the progress
record changes from its value at entry. -/
theorem validation_rejects_before_start (s : AppState) (o o2 : Oracles)
    (h : s.patientData.age = "" ∨
      (jsTrim s.patientData.symptoms = "" ∧ s.patientData.images = [])) :
    ((runAnalysis s o).final.error = some "Please provide patient age." ∨
     (runAnalysis s o).final.error =
       some "Please provide either clinical symptoms OR upload diagnostic imagery.") ∧
    (runAnalysis s o).trace = [] ∧
    (runAnalysis s o).final.processingStage = s.processingStage ∧
    (runAnalysis s o).final.step = s.step ∧
    runAnalysis s o = runAnalysis s o2 := by
  by_cases hage : s.patientData.age = "" <;>
  by_cases htrim : jsTrim s.patientData.symptoms = "" <;>
  by_cases himg : s.patientData.images = [] <;>
  simp_all [runAnalysis, addLog, lastN]

/-- C3: For every run in which the anatomy classifier fails during the Vision
stage, the failure is non-fatal: the run proceeds to the Registry stage with
an empty anatomy context and a final AnalysisResult is still produced when
the remaining stages succeed; and the Vision stage is the only stage whose
failure does not abort the run (registry, retrieval and synthesis failures
all abort it). -/
theorem vision_failure_nonfatal (s : AppState) (o : Oracles) (e : String)
    (hage : s.patientData.age ≠ "") (himg : s.patientData.images ≠ [])
    (hc : o.classify = Except.error e) :
    (∃ ps ∈ (runAnalysis s o).trace, ps.step = StageStep.registry) ∧
    (∀ q, (runAnalysis s o).retrievalQuery = some q →
      q = constructQuery s.patientData.symptoms "") ∧
    (∀ nodes cs res, o.health = Except.ok nodes → o.retrieve = Except.ok cs →
      o.analyze = Except.ok res →
      (runAnalysis s o).final.analysisResult = some res ∧
      (runAnalysis s o).final.step = AppStep.results ∧
      (runAnalysis s o).final.error = none) ∧
    (∀ e2, o.health = Except.error e2 →
      (runAnalysis s o).final.error = some e2 ∧
      (runAnalysis s o).final.step = AppStep.input) ∧
    (∀ nodes e3, o.health = Except.ok nodes → o.retrieve = Except.error e3 →
      (runAnalysis s o).final.error = some e3 ∧
      (runAnalysis s o).final.step = AppStep.input) ∧
    (∀ nodes cs e4, o.health = Except.ok nodes → o.retrieve = Except.ok cs →
      o.analyze = Except.error e4 →
      (runAnalysis s o).final.error = some e4 ∧
      (runAnalysis s o).final.step = AppStep.input) := by
  rcases hh : o.health with e2 | nodes <;>
  rcases hr : o.retrieve with e3 | cs <;>
  rcases ha : o.analyze with e4 | res <;>
  simp_all [runAnalysis, addLog, lastN]

/-- C4: For every run in which the registry health probe fails, the run ends
Failed with the triggering error, executes no further stages (no retrieval or
synthesis progress entry is written and the retriever is never invoked), the
progress record is left frozen at the Registry stage with percent 45, and the
user-entered query data is unchanged so the caller can retry without
re-entry. -/
theorem registry_failure_fatal (s : AppState) (o : Oracles) (e : String)
    (hage : s.patientData.age ≠ "")
    (hval : ¬(jsTrim s.patientData.symptoms = "" ∧ s.patientData.images = []))
    (hh : o.health = Except.error e) :
    (runAnalysis s o).final.error = some e ∧
    (runAnalysis s o).final.step = AppStep.input ∧
    (runAnalysis s o).final.processingStage.step = StageStep.registry ∧
    (runAnalysis s o).final.processingStage.progress = 45 ∧
    (runAnalysis s o).final.patientData = s.patientData ∧
    (runAnalysis s o).retrievalQuery = none ∧
    ∀ ps ∈ (runAnalysis s o).trace,
      ps.step ≠ StageStep.retrieval ∧ ps.step ≠ StageStep.synthesis := by
  rcases hc : o.classify with e1 | a <;>
  by_cases himg : s.patientData.images = [] <;>
  by_cases htrim : jsTrim s.patientData.symptoms = "" <;>
  simp_all [runAnalysis, addLog, lastN]

/-- C5: For every run, the retrieval query is constructed by prefixing the
free-text symptoms with the bracketed anatomy tag when the Vision stage
produced a label, substituting the default phrase when the symptoms are blank
and no label was produced; and the query handed to the retriever is exactly
the one this construction yields from the symptoms and the run's anatomy
context. -/
theorem retrieval_query_spec (s : AppState) (o : Oracles) (sym a q : String) :
    (a ≠ "" → constructQuery sym a = "[PATIENT IMAGING ANATOMY: " ++ a ++ "] " ++ sym) ∧
    (jsTrim sym = "" → constructQuery sym "" = "visual anomaly suspected malignancy") ∧
    ((runAnalysis s o).retrievalQuery = some q →
      q = constructQuery s.patientData.symptoms (anatomyCtx s o)) := by
  refine ⟨fun ha2 => by simp [constructQuery, ha2], fun hst => by simp [constructQuery, hst], ?_⟩
  rcases hc : o.classify with e | lbl <;>
  rcases hh : o.health with e2 | nodes <;>
  rcases hr : o.retrieve with e3 | cs <;>
  rcases ha : o.analyze with e4 | res <;>
  by_cases hage : s.patientData.age = "" <;>
  by_cases himg : s.patientData.images = [] <;>
  by_cases htrim : jsTrim s.patientData.symptoms = "" <;>
  simp_all [runAnalysis, anatomyCtx, addLog, lastN]

set_option maxHeartbeats 1000000 in
/-- C6: For every single pipeline run, the sequence of values written to the
progress percent is monotonically non-decreasing, reaches 100 only on a
successful run, and is never written as 0 during a run (0 is only the initial
value a fresh run starts from). -/
theorem progress_monotone_within_run (s : AppState) (o : Oracles) :
    List.Chain' (fun n m => n ≤ m) (progressTrace (runAnalysis s o)) ∧
    (∀ n ∈ progressTrace (runAnalysis s o), n ≠ 0) ∧
    (100 ∈ progressTrace (runAnalysis s o) →
      (runAnalysis s o).final.step = AppStep.results) := by
  by_cases hage : s.patientData.age = "" <;>
  by_cases htrim : jsTrim s.patientData.symptoms = "" <;>
  by_cases himg : s.patientData.images = [] <;>
  rcases hc : o.classify with e | a <;>
  rcases hh : o.health with e2 | nodes <;>
  rcases hr : o.retrieve with e3 | cs <;>
  rcases ha : o.analyze with e4 | res <;>
  simp [runAnalysis, progressTrace, addLog, lastN, hage, htrim, himg, hc, hh, hr, ha]

set_option maxHeartbeats 1000000 in
/-- C7: For every run, progress percents observed while a stage is current
are bounded by that stage's ceiling — Vision ≤ 30, Registry ≤ 45, Retrieval
≤ 75, Synthesis ≤ 100 — and the write sequence never decreases the percent. -/
theorem stage_progress_bounds (s : AppState) (o : Oracles) :
    (∀ ps ∈ (runAnalysis s o).trace,
      (ps.step = StageStep.vision → ps.progress ≤ 30) ∧
      (ps.step = StageStep.registry → ps.progress ≤ 45) ∧
      (ps.step = StageStep.retrieval → ps.progress ≤ 75) ∧
      (ps.step = StageStep.synthesis → ps.progress ≤ 100)) ∧
    List.Chain' (fun n m => n ≤ m) (progressTrace (runAnalysis s o)) := by
  by_cases hage : s.patientData.age = "" <;>
  by_cases htrim : jsTrim s.patientData.symptoms = "" <;>
  by_cases himg : s.patientData.images = [] <;>
  rcases hc : o.classify with e | a <;>
  rcases hh : o.health with e2 | nodes <;>
  rcases hr : o.retrieve with e3 | cs <;>
  rcases ha : o.analyze with e4 | res <;>
  simp [runAnalysis, progressTrace, addLog, lastN, hage, htrim, himg, hc, hh, hr, ha]

set_option maxHeartbeats 1000000 in
/-- C8: At every observation point during every run the progress log holds at
most 4 entries; and `addLog` pushes the new entry, evicting the oldest
exactly when the length would exceed the capacity of 4, preserving the order
of the remaining entries. -/
theorem log_capacity (s : AppState) (o : Oracles) (ps : ProcessingStage) (e : String) :
    (∀ q ∈ (runAnalysis s o).trace, q.log.length ≤ 4) ∧
    (ps.log.length ≤ 4 →
      (addLog ps e).log.length ≤ 4 ∧
      (ps.log.length < 4 → (addLog ps e).log = ps.log ++ [e]) ∧
      (ps.log.length = 4 → (addLog ps e).log = ps.log.tail ++ [e])) := by
  constructor
  · by_cases hage : s.patientData.age = "" <;>
    by_cases htrim : jsTrim s.patientData.symptoms = "" <;>
    by_cases himg : s.patientData.images = [] <;>
    rcases hc : o.classify with e1 | a <;>
    rcases hh : o.health with e2 | nodes <;>
    rcases hr : o.retrieve with e3 | cs <;>
    rcases ha : o.analyze with e4 | res <;>
    simp [runAnalysis, addLog, lastN, hage, htrim, himg, hc, hh, hr, ha]
  · intro h4
    refine ⟨?_, ?_, ?_⟩
    · simp [addLog, lastN]
      omega
    · intro hlt
      have hz : ps.log.length - 3 = 0 := by omega
      simp [addLog, lastN, hz]
    · intro heq
      have ho : ps.log.length - 3 = 1 := by omega
      simp [addLog, lastN, ho, List.drop_one]

/-- C9: Age validation checks only presence: any non-empty age string passes
(the pipeline starts), including zero, negative or non-numeric text, while an
empty age field fails immediately with the age validation error. -/
theorem age_validation_presence_only (s : AppState) (o : Oracles) :
    (s.patientData.age ≠ "" → s.patientData.images ≠ [] →
      (runAnalysis s o).trace ≠ []) ∧
    (s.patientData.age ≠ "" → jsTrim s.patientData.symptoms ≠ "" →
      (runAnalysis s o).trace ≠ []) ∧
    (s.patientData.age = "" →
      (runAnalysis s o).final.error = some "Please provide patient age." ∧
      (runAnalysis s o).trace = []) := by
  rcases hc : o.classify with e | a <;>
  rcases hh : o.health with e2 | nodes <;>
  rcases hr : o.retrieve with e3 | cs <;>
  rcases ha : o.analyze with e4 | res <;>
  by_cases hage : s.patientData.age = "" <;>
  by_cases htrim : jsTrim s.patientData.symptoms = "" <;>
  by_cases himg : s.patientData.images = [] <;>
  simp_all [runAnalysis, addLog, lastN]

/-- C10: Whitespace-only symptoms are treated as empty at both checks: the
query is rejected when no imagery is attached, and when the run proceeds with
no anatomy label the whitespace-only symptoms are replaced by the default
retrieval phrase. -/
theorem whitespace_symptoms_trimmed (s : AppState) (o : Oracles)
    (hage : s.patientData.age ≠ "") (hw : jsTrim s.patientData.symptoms = "") :
    (s.patientData.images = [] →
      (runAnalysis s o).final.error =
        some "Please provide either clinical symptoms OR upload diagnostic imagery." ∧
      (runAnalysis s o).trace = []) ∧
    (∀ e q, o.classify = Except.error e → (runAnalysis s o).retrievalQuery = some q →
      q = "visual anomaly suspected malignancy") := by
  rcases hc : o.classify with e1 | a <;>
  rcases hh : o.health with e2 | nodes <;>
  rcases hr : o.retrieve with e3 | cs <;>
  rcases ha : o.analyze with e4 | res <;>
  by_cases himg : s.patientData.images = [] <;>
  simp_all [runAnalysis, constructQuery, addLog, lastN]

/-! ### Witnesses -/

/-- Witness for C1 at a concrete valid query and all-succeeding collaborators. -/
theorem run_terminal_dichotomy_witness :
    initialState.patientData.age ≠ "" ∧
    ¬(jsTrim initialState.patientData.symptoms = "" ∧ initialState.patientData.images = []) ∧
    initialState.analysisResult = none ∧
    ((((runAnalysis initialState okOracles).final.step = AppStep.results ∧
       ((runAnalysis initialState okOracles).final.analysisResult).isSome ∧
       (runAnalysis initialState okOracles).final.error = none) ∨
      ((runAnalysis initialState okOracles).final.step = AppStep.input ∧
       ((runAnalysis initialState okOracles).final.error).isSome ∧
       (runAnalysis initialState okOracles).final.analysisResult = none)) ∧
     ¬(((runAnalysis initialState okOracles).final.analysisResult).isSome ∧
       ((runAnalysis initialState okOracles).final.error).isSome)) :=
  ⟨by decide, by decide, rfl,
   run_terminal_dichotomy initialState okOracles (by decide) (by decide) rfl⟩

/-- Witness for C2 at a concrete query with neither symptoms nor imagery. -/
theorem validation_rejects_before_start_witness :
    (noInputState.patientData.age = "" ∨
     (jsTrim noInputState.patientData.symptoms = "" ∧ noInputState.patientData.images = [])) ∧
    (((runAnalysis noInputState okOracles).final.error = some "Please provide patient age." ∨
      (runAnalysis noInputState okOracles).final.error =
        some "Please provide either clinical symptoms OR upload diagnostic imagery.") ∧
     (runAnalysis noInputState okOracles).trace = [] ∧
     (runAnalysis noInputState okOracles).final.processingStage = noInputState.processingStage ∧
     (runAnalysis noInputState okOracles).final.step = noInputState.step ∧
     runAnalysis noInputState okOracles = runAnalysis noInputState healthFailOracles) :=
  ⟨Or.inr ⟨by decide, rfl⟩,
   validation_rejects_before_start noInputState okOracles healthFailOracles
     (Or.inr ⟨by decide, rfl⟩)⟩

/-- Witness for C3 at a concrete imaging query whose classifier fails while
every later stage succeeds. -/
theorem vision_failure_nonfatal_witness :
    imagingState.patientData.age ≠ "" ∧
    imagingState.patientData.images ≠ [] ∧
    classifyFailOracles.classify = Except.error "Could not identify anatomy" ∧
    (runAnalysis imagingState classifyFailOracles).retrievalQuery =
      some (constructQuery imagingState.patientData.symptoms "") ∧
    (runAnalysis imagingState classifyFailOracles).final.analysisResult = some sampleResult ∧
    (runAnalysis imagingState classifyFailOracles).final.step = AppStep.results :=
  ⟨by decide, by decide, rfl, by decide,
   (vision_failure_nonfatal imagingState classifyFailOracles "Could not identify anatomy"
     (by decide) (by decide) rfl).2.2.1 [ "NIH"] [] sampleResult rfl rfl rfl |>.1,
   (vision_failure_nonfatal imagingState classifyFailOracles "Could not identify anatomy"
     (by decide) (by decide) rfl).2.2.1 [ "NIH"] [] sampleResult rfl rfl rfl |>.2.1⟩

/-- Witness for C4 at a concrete valid query whose registry probe fails. -/
theorem registry_failure_fatal_witness :
    initialState.patientData.age ≠ "" ∧
    ¬(jsTrim initialState.patientData.symptoms = "" ∧ initialState.patientData.images = []) ∧
    healthFailOracles.health = Except.error "Registry mesh unreachable" ∧
    (runAnalysis initialState healthFailOracles).final.error = some "Registry mesh unreachable" ∧
    (runAnalysis initialState healthFailOracles).final.step = AppStep.input ∧
    (runAnalysis initialState healthFailOracles).final.processingStage.step = StageStep.registry ∧
    (runAnalysis initialState healthFailOracles).final.processingStage.progress = 45 ∧
    (runAnalysis initialState healthFailOracles).final.patientData = initialState.patientData ∧
    (runAnalysis initialState healthFailOracles).retrievalQuery = none :=
  ⟨by decide, by decide, rfl,
   (registry_failure_fatal initialState healthFailOracles "Registry mesh unreachable"
     (by decide) (by decide) rfl).1,
   (registry_failure_fatal initialState healthFailOracles "Registry mesh unreachable"
     (by decide) (by decide) rfl).2.1,
   (registry_failure_fatal initialState healthFailOracles "Registry mesh unreachable"
     (by decide) (by decide) rfl).2.2.1,
   (registry_failure_fatal initialState healthFailOracles "Registry mesh unreachable"
     (by decide) (by decide) rfl).2.2.2.1,
   (registry_failure_fatal initialState healthFailOracles "Registry mesh unreachable"
     (by decide) (by decide) rfl).2.2.2.2.1,
   (registry_failure_fatal initialState healthFailOracles "Registry mesh unreachable"
     (by decide) (by decide) rfl).2.2.2.2.2.1⟩

/-- Witness for C5: the anatomy tag prefixes the blank symptoms of the
concrete imaging query, and the run hands the retriever exactly the
constructed query. -/
theorem retrieval_query_spec_witness :
    ( "Lung" : String) ≠ "" ∧
    jsTrim "" = "" ∧
    (runAnalysis imagingState okOracles).retrievalQuery =
      some "[PATIENT IMAGING ANATOMY: Skin] " ∧
    constructQuery "" "Lung" = "[PATIENT IMAGING ANATOMY: " ++ "Lung" ++ "] " ++ "" ∧
    constructQuery "" "" = "visual anomaly suspected malignancy" ∧
    "[PATIENT IMAGING ANATOMY: Skin] " =
      constructQuery imagingState.patientData.symptoms (anatomyCtx imagingState okOracles) :=
  ⟨by decide, rfl, by decide,
   (retrieval_query_spec imagingState okOracles "" "Lung"
     "[PATIENT IMAGING ANATOMY: Skin] ").1 (by decide),
   (retrieval_query_spec imagingState okOracles "" "Lung"
     "[PATIENT IMAGING ANATOMY: Skin] ").2.1 rfl,
   (retrieval_query_spec imagingState okOracles "" "Lung"
     "[PATIENT IMAGING ANATOMY: Skin] ").2.2 (by decide)⟩

/-- Witness for C6 at a concrete successful run. -/
theorem progress_monotone_within_run_witness :
    List.Chain' (fun n m => n ≤ m) (progressTrace (runAnalysis initialState okOracles)) ∧
    (runAnalysis initialState okOracles).final.step = AppStep.results :=
  ⟨(progress_monotone_within_run initialState okOracles).1,
   (progress_monotone_within_run initialState okOracles).2.2 (by decide)⟩

/-- Witness for C7 at the concrete boot entry of a concrete run. -/
theorem stage_progress_bounds_witness :
    bootEntry ∈ (runAnalysis initialState okOracles).trace ∧
    bootEntry.progress ≤ 30 ∧
    List.Chain' (fun n m => n ≤ m) (progressTrace (runAnalysis initialState okOracles)) :=
  ⟨by decide,
   ((stage_progress_bounds initialState okOracles).1 bootEntry (by decide)).1 rfl,
   (stage_progress_bounds initialState okOracles).2⟩

/-- Witness for C8: appending below capacity keeps order and appends;
appending at capacity evicts the oldest entry. -/
theorem log_capacity_witness :
    initialStage.log.length ≤ 4 ∧
    fullStage.log.length = 4 ∧
    bootEntry ∈ (runAnalysis initialState okOracles).trace ∧
    (bootEntry.log.length ≤ 4) ∧
    (addLog initialStage "> probe").log = initialStage.log ++ [ "> probe"] ∧
    (addLog fullStage "> probe").log = fullStage.log.tail ++ [ "> probe"] :=
  ⟨by decide, by decide, by decide,
   (log_capacity initialState okOracles initialStage "> probe").1 bootEntry (by decide),
   ((log_capacity initialState okOracles initialStage "> probe").2 (by decide)).2.1 (by decide),
   ((log_capacity initialState okOracles fullStage "> probe").2 (by decide)).2.2 (by decide)⟩

/-- Witness for C9: age strings "0", "-5" and "abc" all pass validation and
start the pipeline, while an empty age fails with the age message. -/
theorem age_validation_presence_only_witness :
    (runAnalysis zeroAgeState okOracles).trace ≠ [] ∧
    (runAnalysis negAgeState okOracles).trace ≠ [] ∧
    (runAnalysis textAgeState okOracles).trace ≠ [] ∧
    (runAnalysis noAgeState okOracles).final.error = some "Please provide patient age." :=
  ⟨(age_validation_presence_only zeroAgeState okOracles).2.1 (by decide) (by decide),
   (age_validation_presence_only negAgeState okOracles).2.1 (by decide) (by decide),
   (age_validation_presence_only textAgeState okOracles).2.1 (by decide) (by decide),
   ((age_validation_presence_only noAgeState okOracles).2.2 rfl).1⟩

/-- Witness for C10 at concrete whitespace-only symptoms: rejected without
imagery, and the default phrase is retrieved when the classifier fails. -/
theorem whitespace_symptoms_trimmed_witness :
    wsState.patientData.age ≠ "" ∧
    jsTrim wsState.patientData.symptoms = "" ∧
    (runAnalysis wsState okOracles).final.error =
      some "Please provide either clinical symptoms OR upload diagnostic imagery." ∧
    (runAnalysis wsState okOracles).trace = [] ∧
    (runAnalysis wsImagingState classifyFailOracles).retrievalQuery =
      some "visual anomaly suspected malignancy" :=
  ⟨by decide, by decide,
   ((whitespace_symptoms_trimmed wsState okOracles (by decide) (by decide)).1 rfl).1,
   ((whitespace_symptoms_trimmed wsState okOracles (by decide) (by decide)).1 rfl).2,
   by decide⟩
